import Mathlib

/-!
Shallow embedding of `train.py` (EgoBody challenge solution): the loss
functions, the training / test steps and the evaluation loop of the
`Trainer` class, together with the weak-projection helper.

Tensors are modelled as (nested) lists of scalars drawn from an arbitrary
linear ordered field `α` (instantiated with `ℚ` for concrete evaluation and
with `ℝ` where the mathematical exponential is needed).  A row of a
`[*, 3]` tensor is a function `Fin 3 → α`.  Batched calls of the network
and of the SMPL body model are `List.map`s of per-example evaluators, which
are kept abstract (fields of a `Ctx` structure) because their definitions
live outside `train.py`.  Exceptions are modelled with `Option`, and the
optimizer side effects of a step are recorded as an explicit event trace.
-/

namespace EgoBody

/-- A row of a `[*, 3]` tensor (one 3D point / one axis-angle triple). -/
abbrev V3 (α : Type) := Fin 3 → α

/-- A row of a `[*, 2]` tensor (one 2D point). -/
abbrev V2 (α : Type) := Fin 2 → α

/-- A `3 × 3` matrix (one rotation matrix). -/
abbrev M33 (α : Type) := Fin 3 → Fin 3 → α

variable {α : Type} [LinearOrderedField α] {β γ : Type}

/-- The zero 3-vector (used as an out-of-range default when indexing). -/
def z3 : V3 α := fun _ => 0

/-- The zero 2-vector. -/
def z2 : V2 α := fun _ => 0

/-- `Tensor.mean()`: the sum of all entries divided by their number. -/
def mean (l : List α) : α := l.sum / (l.length : α)

/-- Boolean-mask indexing `t[flags == 1]` along the batch dimension:
keeps the rows whose flag equals `1` (the flags are the 0/1 byte tensors
`has_smpl` / `has_pose_3d`). -/
def maskFilter : List β → List Nat → List β
  | [], _ => []
  | _, [] => []
  | x :: xs, g :: gs => if g = 1 then x :: maskFilter xs gs else maskFilter xs gs

/-- The pelvis proxy of `train.py:99,101`: the midpoint of the keypoints at
indices 2 and 3 of a `[K, 3]` block. -/
def pelvisOf (l : List (V3 α)) : V3 α := fun i => ((l.getD 2 z3) i + (l.getD 3 z3) i) / 2

/-- Re-centering of a `[K, 3]` block on its pelvis (`x - pelvis[None, :]`). -/
def centerAtPelvis (l : List (V3 α)) : List (V3 α) :=
  l.map (fun v => fun i => v i - pelvisOf l i)

/-- The elementwise terms `conf * (pred - gt) ** 2` of one example of a
`[K, 3]` keypoint block, flattened; `nn.MSELoss(reduction='none')` squares
entry by entry and the `[K, 1]` confidence column broadcasts over the last
dimension. -/
def confSqTerms3 (conf : List α) (pred gt : List (V3 α)) : List α :=
  ((conf.zip (pred.zip gt)).map (fun cpg =>
    [cpg.1 * (cpg.2.1 0 - cpg.2.2 0) ^ 2,
     cpg.1 * (cpg.2.1 1 - cpg.2.2 1) ^ 2,
     cpg.1 * (cpg.2.1 2 - cpg.2.2 2) ^ 2])).flatten

/-- `Trainer.keypoint_3d_loss` (train.py:88-105): slice the predictions to
the 24 joints after index 25, split the ground truth `[B, K, 4]` into
coordinates and confidence, keep the examples flagged by `has_pose_3d == 1`,
and, if any are left, compare pelvis-centered coordinates under the
confidence-weighted elementwise MSE mean; otherwise return `0`. -/
def keypoint_3d_loss (pred_keypoints_3d : List (List (V3 α)))
    (gt_keypoints_3d : List (List (V3 α × α))) (has_pose_3d : List Nat) : α :=
  let pred1 := pred_keypoints_3d.map (fun r => r.drop 25)
  let conf := gt_keypoints_3d.map (fun r => r.map Prod.snd)
  let gtc := gt_keypoints_3d.map (fun r => r.map Prod.fst)
  let gtv := maskFilter gtc has_pose_3d
  let confv := maskFilter conf has_pose_3d
  let predv := maskFilter pred1 has_pose_3d
  if 0 < gtv.length then
    let gtcent := gtv.map centerAtPelvis
    let predcent := predv.map centerAtPelvis
    mean (((confv.zip (predcent.zip gtcent)).map
      (fun e => confSqTerms3 e.1 e.2.1 e.2.2)).flatten)
  else 0

/-- The elementwise terms `|pred - gt|` of one vertex (L1 loss before the
mean reduction). -/
def absDiff3 (p g : V3 α) : List α := [|p 0 - g 0|, |p 1 - g 1|, |p 2 - g 2|]

/-- `Trainer.shape_loss` (train.py:107-114): keep the examples flagged by
`has_smpl == 1`; if any are left return the `nn.L1Loss()` mean over the
per-vertex coordinate differences, otherwise `0`. -/
def shape_loss (pred_vertices gt_vertices : List (List (V3 α)))
    (has_smpl : List Nat) : α :=
  let predv := maskFilter pred_vertices has_smpl
  let gtv := maskFilter gt_vertices has_smpl
  if 0 < gtv.length then
    mean (((predv.zip gtv).map
      (fun e => ((e.1.zip e.2).map (fun pg => absDiff3 pg.1 pg.2)).flatten)).flatten)
  else 0

/-- The nine elementwise squared differences of two `3 × 3` matrices
(`nn.MSELoss()` before the mean reduction). -/
def mseTermsM33 (p g : M33 α) : List α :=
  [(p 0 0 - g 0 0) ^ 2, (p 0 1 - g 0 1) ^ 2, (p 0 2 - g 0 2) ^ 2,
   (p 1 0 - g 1 0) ^ 2, (p 1 1 - g 1 1) ^ 2, (p 1 2 - g 1 2) ^ 2,
   (p 2 0 - g 2 0) ^ 2, (p 2 1 - g 2 1) ^ 2, (p 2 2 - g 2 2) ^ 2]

/-- Consecutive grouping: `t.view(-1, n, ...)` on the leading dimension
(also the batching of a `DataLoader` with `batch_size = n` and
`shuffle=False`). -/
def chunkList (n : Nat) (l : List β) : List (List β) :=
  match n, l with
  | _, [] => []
  | 0, b :: t => [b :: t]
  | m + 1, b :: t => ((b :: t).take (m + 1)) :: chunkList (m + 1) (t.drop m)
termination_by l.length
decreasing_by simp [List.length_drop]; omega

/-- Reading a length-3 list as a 3-vector (`view(-1, 3)` rows). -/
def v3OfList (l : List α) : V3 α := fun i => l.getD (i : Nat) 0

/-- `batch_rodrigues(gt_pose.view(-1,3)).view(-1, 24, 3, 3)`: flatten the
`[B, 72]` pose tensor, group it into axis-angle triples, convert each with
the (external) Rodrigues formula, and regroup 24 matrices per example. -/
def batch_rodrigues_mats (rodrigues : V3 α → M33 α) (gt_pose : List (List α)) :
    List (List (M33 α)) :=
  chunkList 24 ((chunkList 3 gt_pose.flatten).map (fun c => rodrigues (v3OfList c)))

/-- `Trainer.smpl_losses` (train.py:116-127): keep the examples flagged by
`has_smpl == 1`; if any predicted rotation matrices are left return the MSE
means on rotation matrices and on betas, otherwise `(0, 0)`. -/
def smpl_losses (rodrigues : V3 α → M33 α) (pred_rotmat : List (List (M33 α)))
    (pred_betas : List (List α)) (gt_pose gt_betas : List (List α))
    (has_smpl : List Nat) : α × α :=
  let pred_rotmat_valid := maskFilter pred_rotmat has_smpl
  let gt_rotmat_valid := maskFilter (batch_rodrigues_mats rodrigues gt_pose) has_smpl
  let pred_betas_valid := maskFilter pred_betas has_smpl
  let gt_betas_valid := maskFilter gt_betas has_smpl
  if 0 < pred_rotmat_valid.length then
    (mean (((pred_rotmat_valid.zip gt_rotmat_valid).map
        (fun e => ((e.1.zip e.2).map (fun pg => mseTermsM33 pg.1 pg.2)).flatten)).flatten),
     mean (((pred_betas_valid.zip gt_betas_valid).map
        (fun e => (e.1.zip e.2).map (fun pg => (pg.1 - pg.2) ^ 2))).flatten))
  else (0, 0)

/-- `Trainer.keypoint_loss` (train.py:77-86), value level: the confidence
column of the `[B, K, 3]` ground truth, scaled by `openpose_weight` for the
first 25 keypoints and by `gt_weight` for the rest, weights the elementwise
squared differences of the 2D coordinates; the loss is their mean.
(The in-place storage behaviour of the same function is modelled separately
by `keypoint_loss_heap`.) -/
def keypoint_loss (pred_keypoints_2d : List (List (V2 α)))
    (gt_keypoints_2d : List (List (V2 α × α))) (openpose_weight gt_weight : α) : α :=
  let conf := gt_keypoints_2d.map (fun r => (r.map Prod.snd).enum.map
    (fun jc => if jc.1 < 25 then jc.2 * openpose_weight else jc.2 * gt_weight))
  let gtc := gt_keypoints_2d.map (fun r => r.map Prod.fst)
  mean (((conf.zip (pred_keypoints_2d.zip gtc)).map (fun e =>
    ((e.1.zip (e.2.1.zip e.2.2)).map (fun cpg =>
      [cpg.1 * (cpg.2.1 0 - cpg.2.2 0) ^ 2,
       cpg.1 * (cpg.2.1 1 - cpg.2.2 1) ^ 2])).flatten)).flatten)

/-- `weakProjection_gpu` (train.py:22-27): per batch item, scale the first
two coordinates of every 3D joint and add the 2D translation (the `view`
calls realize broadcasting of `scale` and `trans2D` over the joints). -/
def weakProjection_gpu (skel3D : List (List (V3 α))) (scale : List α)
    (trans2D : List (V2 α)) : List (List (V2 α)) :=
  List.zipWith (fun rows st => rows.map (fun p => fun i : Fin 2 => st.1 * p i.castSucc + st.2 i))
    skel3D (scale.zip trans2D)

theorem maskFilter_eq_nil_of_zero (xs : List β) (flags : List Nat)
    (h : ∀ g ∈ flags, g = 0) : maskFilter xs flags = [] := by
  induction xs generalizing flags with
  | nil => cases flags <;> simp [maskFilter]
  | cons x xs ih =>
    cases flags with
    | nil => simp [maskFilter]
    | cons g gs =>
      have hg : g = 0 := h g (by simp)
      simp [maskFilter, hg, ih gs (fun g hg => h g (by simp [hg]))]

theorem maskFilter_map (f : β → γ) (xs : List β) (flags : List Nat) :
    maskFilter (xs.map f) flags = (maskFilter xs flags).map f := by
  induction xs generalizing flags with
  | nil => cases flags <;> simp [maskFilter]
  | cons x xs ih =>
    cases flags with
    | nil => simp [maskFilter]
    | cons g gs => by_cases hg : g = 1 <;> simp [maskFilter, hg, ih gs]

theorem mem_of_mem_maskFilter {x : β} {xs : List β} {flags : List Nat}
    (h : x ∈ maskFilter xs flags) : x ∈ xs := by
  induction xs generalizing flags with
  | nil => cases flags <;> simp [maskFilter] at h
  | cons y ys ih =>
    cases flags with
    | nil => simp [maskFilter] at h
    | cons g gs =>
      by_cases hg : g = 1
      · simp [maskFilter, hg] at h
        rcases h with h | h
        · simp [h]
        · exact List.mem_cons_of_mem _ (ih h)
      · simp [maskFilter, hg] at h
        exact List.mem_cons_of_mem _ (ih h)

/-- C1: when no example of the batch is flagged valid (all entries of
`has_pose_3d` are 0 for `keypoint_3d_loss`, all entries of `has_smpl` are 0
for `shape_loss` and `smpl_losses`), the loss functions return a zero loss
instead of failing. -/
theorem no_valid_examples_zero_loss
    (pred3 : List (List (V3 α))) (gt3 : List (List (V3 α × α))) (hp3 : List Nat)
    (predV gtV : List (List (V3 α))) (rodrigues : V3 α → M33 α)
    (predR : List (List (M33 α))) (predB gtP gtB : List (List α)) (hs : List Nat)
    (h3 : ∀ g ∈ hp3, g = 0) (hsm : ∀ g ∈ hs, g = 0) :
    keypoint_3d_loss pred3 gt3 hp3 = 0 ∧
    shape_loss predV gtV hs = 0 ∧
    smpl_losses rodrigues predR predB gtP gtB hs = (0, 0) := by
  refine ⟨?_, ?_, ?_⟩
  · simp [keypoint_3d_loss, maskFilter_eq_nil_of_zero _ _ h3]
  · simp [shape_loss, maskFilter_eq_nil_of_zero _ _ hsm]
  · simp [smpl_losses, maskFilter_eq_nil_of_zero _ _ hsm]

theorem no_valid_examples_zero_loss_witness :
    ((∀ g ∈ [0, 0], g = 0) ∧
      keypoint_3d_loss (α := ℚ) [[z3], [z3]] [[(z3, 1)], [(z3, 1)]] [0, 0] = 0 ∧
      shape_loss (α := ℚ) [[z3], [z3]] [[z3], [z3]] [0, 0] = 0 ∧
      smpl_losses (α := ℚ) (fun _ _ _ => 0) [[], []] [[1], [2]] [[], []] [[1], [2]] [0, 0] = (0, 0)) :=
  ⟨by decide,
   no_valid_examples_zero_loss [[z3], [z3]] [[(z3, 1)], [(z3, 1)]] [0, 0]
     [[z3], [z3]] [[z3], [z3]] (fun _ _ _ => 0) [[], []] [[1], [2]] [[], []] [[1], [2]] [0, 0]
     (by decide) (by decide)⟩

theorem pelvisOf_map_shift (l : List (V3 α)) (c : V3 α) (h : 4 ≤ l.length) :
    pelvisOf (l.map (fun v => fun i => v i + c i)) = fun i => pelvisOf l i + c i := by
  funext i
  have h2 : (2 : Nat) < l.length := by omega
  have h3 : (3 : Nat) < l.length := by omega
  simp [pelvisOf, List.getD_eq_getElem?_getD, List.getElem?_map,
        List.getElem?_eq_getElem h2, List.getElem?_eq_getElem h3]
  ring

theorem centerAtPelvis_map_shift (l : List (V3 α)) (c : V3 α) (h : 4 ≤ l.length) :
    centerAtPelvis (l.map (fun v => fun i => v i + c i)) = centerAtPelvis l := by
  simp only [centerAtPelvis, List.map_map, Function.comp_def, pelvisOf_map_shift l c h]
  apply List.map_congr_left
  intro v hv
  funext i
  ring

theorem drop_take_append_map_drop (r : List β) (f : β → β) (h : 25 ≤ r.length) :
    (r.take 25 ++ (r.drop 25).map f).drop 25 = (r.drop 25).map f := by
  have hl : (r.take 25).length = 25 := by
    simp only [List.length_take]
    omega
  have hd := List.drop_left (r.take 25) ((r.drop 25).map f)
  rwa [hl] at hd

/-- C9: `keypoint_3d_loss` is invariant under a uniform translation of the
3D keypoints: shifting all predicted keypoints from index 25 onward by a
constant 3-vector, or shifting all ground-truth keypoint coordinates by a
constant 3-vector, leaves the loss unchanged, because both blocks are
re-centered on the pelvis (the midpoint of joints 2 and 3) before
comparison. -/
theorem keypoint_3d_loss_translation_invariant
    (pred : List (List (V3 α))) (gt : List (List (V3 α × α))) (flags : List Nat)
    (c : V3 α)
    (hpred : ∀ r ∈ pred, 29 ≤ r.length) (hgt : ∀ r ∈ gt, 4 ≤ r.length)
    (hval : ∃ g ∈ flags, g = 1) :
    keypoint_3d_loss
        (pred.map (fun r => r.take 25 ++ (r.drop 25).map (fun v => fun i => v i + c i)))
        gt flags
      = keypoint_3d_loss pred gt flags ∧
    keypoint_3d_loss pred
        (gt.map (fun r => r.map (fun kc => (fun i => kc.1 i + c i, kc.2)))) flags
      = keypoint_3d_loss pred gt flags := by
  constructor
  · have h1 : (pred.map (fun r => r.take 25 ++ (r.drop 25).map (fun v => fun i => v i + c i))).map
          (fun r => r.drop 25)
        = (pred.map (fun r => r.drop 25)).map (List.map (fun v => fun i => v i + c i)) := by
      rw [List.map_map, List.map_map]
      apply List.map_congr_left
      intro r hr
      simp only [Function.comp_apply]
      exact drop_take_append_map_drop r _ (by have := hpred r hr; omega)
    have h2 : ((maskFilter (pred.map (fun r => r.drop 25)) flags).map
          (List.map (fun v => fun i => v i + c i))).map centerAtPelvis
        = (maskFilter (pred.map (fun r => r.drop 25)) flags).map centerAtPelvis := by
      rw [List.map_map]
      apply List.map_congr_left
      intro r hr
      obtain ⟨r0, hr0, rfl⟩ := List.mem_map.mp (mem_of_mem_maskFilter hr)
      simp only [Function.comp_apply]
      exact centerAtPelvis_map_shift _ c
        (by have := hpred r0 hr0; simp only [List.length_drop]; omega)
    simp only [keypoint_3d_loss]
    rw [h1, maskFilter_map (List.map (fun v => fun i => v i + c i))
      (pred.map (fun r => r.drop 25)) flags, h2]
  · have hconf : (gt.map (fun r => r.map (fun kc => (fun i => kc.1 i + c i, kc.2)))).map
          (fun r => r.map Prod.snd)
        = gt.map (fun r => r.map Prod.snd) := by
      rw [List.map_map]
      apply List.map_congr_left
      intro r hr
      simp only [Function.comp_apply, List.map_map]
      apply List.map_congr_left
      intro kc hkc
      rfl
    have hgtc : (gt.map (fun r => r.map (fun kc => (fun i => kc.1 i + c i, kc.2)))).map
          (fun r => r.map Prod.fst)
        = (gt.map (fun r => r.map Prod.fst)).map (List.map (fun v => fun i => v i + c i)) := by
      rw [List.map_map, List.map_map]
      apply List.map_congr_left
      intro r hr
      simp only [Function.comp_apply, List.map_map]
      apply List.map_congr_left
      intro kc hkc
      rfl
    have hcent : ((maskFilter (gt.map (fun r => r.map Prod.fst)) flags).map
          (List.map (fun v => fun i => v i + c i))).map centerAtPelvis
        = (maskFilter (gt.map (fun r => r.map Prod.fst)) flags).map centerAtPelvis := by
      rw [List.map_map]
      apply List.map_congr_left
      intro r hr
      obtain ⟨r0, hr0, rfl⟩ := List.mem_map.mp (mem_of_mem_maskFilter hr)
      simp only [Function.comp_apply]
      exact centerAtPelvis_map_shift _ c (by simpa using hgt r0 hr0)
    simp only [keypoint_3d_loss]
    rw [hconf, hgtc, maskFilter_map (List.map (fun v => fun i => v i + c i))
      (gt.map (fun r => r.map Prod.fst)) flags, hcent]
    simp only [List.length_map]

theorem keypoint_3d_loss_translation_invariant_witness :
    ((∀ r ∈ [List.replicate 29 (z3 (α := ℚ))], 29 ≤ r.length) ∧
      (∀ r ∈ [List.replicate 4 (z3 (α := ℚ), (1 : ℚ))], 4 ≤ r.length) ∧
      (∃ g ∈ [1], g = 1)) ∧
    (keypoint_3d_loss
        ([List.replicate 29 (z3 (α := ℚ))].map
          (fun r => r.take 25 ++ (r.drop 25).map (fun v => fun i => v i + (fun _ => (1 : ℚ)) i)))
        [List.replicate 4 (z3, (1 : ℚ))] [1]
      = keypoint_3d_loss [List.replicate 29 z3] [List.replicate 4 (z3, (1 : ℚ))] [1] ∧
     keypoint_3d_loss [List.replicate 29 (z3 (α := ℚ))]
        ([List.replicate 4 (z3, (1 : ℚ))].map
          (fun r => r.map (fun kc => (fun i => kc.1 i + (fun _ => (1 : ℚ)) i, kc.2)))) [1]
      = keypoint_3d_loss [List.replicate 29 z3] [List.replicate 4 (z3, (1 : ℚ))] [1]) :=
  ⟨⟨by decide, by decide, by decide⟩,
   keypoint_3d_loss_translation_invariant [List.replicate 29 z3]
     [List.replicate 4 (z3, (1 : ℚ))] [1] (fun _ => 1)
     (by decide) (by decide) (by decide)⟩

/-- C10: `weakProjection_gpu` is a pure function whose output has one row of
2D points per batch item and one 2D point per joint, and the projected point
of batch item `b` and joint `j` is `scale[b]` times the first two
coordinates of the 3D joint plus the 2D translation `trans2D[b]`. -/
theorem weakProjection_gpu_spec
    (skel3D : List (List (V3 α))) (scale : List α) (trans2D : List (V2 α))
    (hs : scale.length = skel3D.length) (ht : trans2D.length = skel3D.length)
    (b j : Nat) (hb : b < skel3D.length) (hj : j < (skel3D.getD b []).length) :
    (weakProjection_gpu skel3D scale trans2D).length = skel3D.length ∧
    ((weakProjection_gpu skel3D scale trans2D).getD b []).length
      = (skel3D.getD b []).length ∧
    ((weakProjection_gpu skel3D scale trans2D).getD b []).getD j z2
      = fun i => scale.getD b 0 * ((skel3D.getD b []).getD j z3) i.castSucc
          + (trans2D.getD b z2) i := by
  have hsz : (scale.zip trans2D).length = skel3D.length := by
    simp [List.length_zip, hs, ht]
  have hwl : (weakProjection_gpu skel3D scale trans2D).length = skel3D.length := by
    simp [weakProjection_gpu, List.length_zipWith, hsz]
  have hb1 : b < (weakProjection_gpu skel3D scale trans2D).length := by
    rw [hwl]; exact hb
  have hbs : b < (scale.zip trans2D).length := by rw [hsz]; exact hb
  have hbsc : b < scale.length := by rw [hs]; exact hb
  have hbt : b < trans2D.length := by rw [ht]; exact hb
  have hrow : (weakProjection_gpu skel3D scale trans2D).getD b []
      = (skel3D[b]).map (fun p => fun i : Fin 2 =>
          scale[b] * p i.castSucc + (trans2D[b]) i) := by
    rw [List.getD_eq_getElem _ _ hb1]
    simp only [weakProjection_gpu]
    rw [List.getElem_zipWith (h := by simpa [weakProjection_gpu] using hb1)]
    rw [List.getElem_zip (h := hbs)]
  have hjb : j < (skel3D[b]).length := by
    rwa [List.getD_eq_getElem _ _ hb] at hj
  refine ⟨hwl, ?_, ?_⟩
  · rw [hrow, List.getD_eq_getElem _ _ hb]
    simp [List.length_map]
  · rw [hrow]
    have hjm : j < ((skel3D[b]).map (fun p => fun i : Fin 2 =>
        scale[b] * p i.castSucc + (trans2D[b]) i)).length := by
      simpa [List.length_map] using hjb
    rw [List.getD_eq_getElem _ _ hjm, List.getElem_map,
        List.getD_eq_getElem _ _ hb, List.getD_eq_getElem _ _ hbsc,
        List.getD_eq_getElem _ _ hbt, List.getD_eq_getElem _ _ hjb]

/-- A concrete 3D joint used for witnesses. -/
def w3 : V3 ℚ := fun _ => 3

/-- A concrete 2D translation used for witnesses. -/
def w5 : V2 ℚ := fun _ => 5

theorem weakProjection_gpu_spec_witness :
    (([(2 : ℚ)].length = [[w3]].length ∧
      [w5].length = [[w3]].length ∧
      0 < [[w3]].length ∧
      0 < (([[w3]] : List (List (V3 ℚ))).getD 0 []).length) ∧
     ((weakProjection_gpu [[w3]] [2] [w5]).length = [[w3]].length ∧
      ((weakProjection_gpu [[w3]] [2] [w5]).getD 0 []).length
        = (([[w3]] : List (List (V3 ℚ))).getD 0 []).length ∧
      ((weakProjection_gpu [[w3]] [2] [w5]).getD 0 []).getD 0 z2
        = fun i => ([(2 : ℚ)]).getD 0 0
            * ((([[w3]] : List (List (V3 ℚ))).getD 0 []).getD 0 z3) i.castSucc
            + (([w5] : List (V2 ℚ)).getD 0 z2) i)) :=
  ⟨⟨by decide, by decide, by decide, by decide⟩,
   weakProjection_gpu_spec [[w3]] [2] [w5]
     (by decide) (by decide) 0 0 (by decide) (by decide)⟩

/-- The three options of `TrainOptions` that the modelled code reads,
together with the loss weights. -/
structure Options (α : Type) where
  img_res : α
  use_wpp : Bool
  batch_size : Nat
  shape_loss_weight : α
  keypoint_loss_weight : α
  pose_loss_weight : α
  beta_loss_weight : α
  openpose_train_weight : α
  gt_train_weight : α

/-- Per-example output of the `hmr` regression network: 24 predicted
rotation matrices, the shape coefficients and the weak-perspective camera
`[s, tx, ty]`. -/
structure NetOut (α : Type) where
  rotmat : List (M33 α)
  betas : List α
  camera : V3 α

/-- The pose argument of an SMPL call: either axis-angle components
(`pose2rot=True`, a slice of the 72-vector) or rotation matrices
(`pose2rot=False`). -/
inductive PoseArg (α : Type) where
  | aa : List α → PoseArg α
  | rm : List (M33 α) → PoseArg α

/-- Per-example output of the SMPL body model: 3D joints and mesh
vertices. -/
structure SMPLXOut (α : Type) where
  joints : List (V3 α)
  vertices : List (V3 α)

/-- A tensor value together with its autograd connectivity: `detached` is
`true` when the value is not connected to the computation graph
(`torch.zeros`, `.detach()`). `.clone()` keeps the connectivity, `.detach()`
severs it. -/
structure GradTensor (β : Type) where
  val : β
  detached : Bool

/-- `Tensor.clone()`: same value, same graph connectivity. -/
def GradTensor.clone {β : Type} (t : GradTensor β) : GradTensor β :=
  { val := t.val, detached := t.detached }

/-- `Tensor.detach()`: same value, severed from the graph. -/
def GradTensor.detach {β : Type} (t : GradTensor β) : GradTensor β :=
  { val := t.val, detached := true }

/-- Optimizer-related side effects of a step, in program order. -/
inductive OptEvent where
  | zeroGrad
  | backward
  | stepOpt
  deriving DecidableEq

/-- The external components `train.py` calls but does not define: the
regression network, the two SMPL body models, the geometry helpers from
`utils.geometry` / `torchgeometry`, elementary float functions, the Adam
update, and `reconstruction_error`.  `estimate_translation` returns `none`
when it raises.  `reconstruction_error` is kept abstract; modelled from the
spec: "PA-MPJPE/PA-V2V: procrustes-aligned joint/vertex error metrics"
(the procrustes alignment itself lives in `utils/pose_utils.py`, outside
the modelled file). -/
structure Ctx (α ι P : Type) where
  opts : Options α
  focal_length : α
  submission_path : String
  model : ι → NetOut α
  smpl : List α → PoseArg α → PoseArg α → Bool → SMPLXOut α
  smpl_eval : List α → PoseArg α → PoseArg α → Bool → SMPLXOut α
  estimate_translation :
    List (List (V3 α)) → List (List (V2 α × α)) → α → α → Option (List (V3 α))
  perspective_projection : List (V3 α) → M33 α → V3 α → α → V2 α → List (V2 α)
  rodrigues : V3 α → M33 α
  exp : α → α
  sqrt : α → α
  reconstruction_error : List (V3 α) → List (V3 α) → α
  rotmat_to_aa72 : List (M33 α) → List α
  optUpdate : P → α → P

/-- One training / test batch as loaded from the dataset. -/
structure Batch (α ι : Type) where
  img : List ι
  keypoints : List (List (V2 α × α))
  pose : List (List α)
  betas : List (List α)
  pose_3d : List (List (V3 α × α))
  has_smpl : List Nat
  has_pose_3d : List Nat

/-- The identity rotation passed to `perspective_projection`. -/
def eye3 : M33 α := fun i j => if i = j then 1 else 0

/-- Weak-perspective camera `[s, tx, ty]` to camera translation
`[tx, ty, 2 * focal / (img_res * s + 1e-9)]` (train.py:183-186). -/
def camTFromWeak (focal img_res : α) (cam : V3 α) : V3 α := fun i =>
  if i = 0 then cam 1
  else if i = 1 then cam 2
  else 2 * focal / (img_res * cam 0 + 1 / 1000000000)

/-- The total training loss of train.py:219-227: the five weighted loss
terms plus the positive-depth camera term
`((exp(-pred_camera[:,0]*10))**2).mean()`, all multiplied by 60
(`loss *= 60`). -/
def composeTotalLoss (exp : α → α) (opts : Options α)
    (loss_shape loss_keypoints loss_keypoints_3d loss_regr_pose loss_regr_betas : α)
    (camScale : List α) : α :=
  (opts.shape_loss_weight * loss_shape +
   opts.keypoint_loss_weight * loss_keypoints +
   opts.keypoint_loss_weight * loss_keypoints_3d +
   opts.pose_loss_weight * loss_regr_pose +
   opts.beta_loss_weight * loss_regr_betas +
   mean (camScale.map (fun s => exp (-s * 10) ^ 2))) * 60

/-- The total test loss of train.py:319-324 (same composition without the
3D keypoint term). -/
def composeTestLoss (exp : α → α) (opts : Options α)
    (loss_shape loss_keypoints loss_regr_pose loss_regr_betas : α)
    (camScale : List α) : α :=
  (opts.shape_loss_weight * loss_shape +
   opts.keypoint_loss_weight * loss_keypoints +
   opts.pose_loss_weight * loss_regr_pose +
   opts.beta_loss_weight * loss_regr_betas +
   mean (camScale.map (fun s => exp (-s * 10) ^ 2))) * 60

/-- The weighted sum named by the specification: "the total training loss is
a single scalar equal to the weighted sum of the 2D keypoint loss, the 3D
joint loss, the per-vertex shape loss, and the two parameter-regression
losses (pose and betas), each multiplied by its configured loss weight".
Stated from the spec's words, for comparison with `composeTotalLoss`. -/
def specTotalLoss (opts : Options α)
    (loss_shape loss_keypoints loss_keypoints_3d loss_regr_pose loss_regr_betas : α) : α :=
  opts.shape_loss_weight * loss_shape +
  opts.keypoint_loss_weight * loss_keypoints +
  opts.keypoint_loss_weight * loss_keypoints_3d +
  opts.pose_loss_weight * loss_regr_pose +
  opts.beta_loss_weight * loss_regr_betas

/-- The `output` dictionary returned by `train_step`. -/
structure TrainOutput (α : Type) where
  pred_vertices : List (List (V3 α))
  opt_vertices : List (List (V3 α))
  pred_cam_t : GradTensor (List (V3 α))
  opt_cam_t : GradTensor (List (V3 α))

/-- The `losses` dictionary returned by `train_step`. -/
structure TrainLosses (α : Type) where
  loss : α
  loss_keypoints : α
  loss_keypoints_3d : α
  loss_regr_pose : α
  loss_regr_betas : α
  loss_shape : α

/-- Everything `train_step` produces: the two dictionaries, the updated
parameters, the optimizer event trace, and (for specification purposes)
the intermediate values the step computed. -/
structure TrainStepResult (α P : Type) where
  output : TrainOutput α
  losses : TrainLosses α
  params : P
  trace : List OptEvent
  est_result : Option (List (V3 α))
  pred_cam_t_raw : GradTensor (List (V3 α))
  gt_joints_used : List (List (V3 α × α))
  gt_vertices_used : List (List (V3 α))
  cam_scales : List α

/-- `Trainer.train_step` (train.py:129-245).  Batched module calls are maps
of the per-example evaluators of the context.  The weak-perspective branch
follows `options.use_wpp`; `estimate_translation` returning `none` models
the caught exception of train.py:161-164. -/
def trainStep {ι P : Type} (ctx : Ctx α ι P) (params : P) (b : Batch α ι) :
    TrainStepResult α P :=
  let batch_size := b.img.length
  let gt_out := (b.betas.zip b.pose).map (fun e =>
    ctx.smpl e.1 (PoseArg.aa (e.2.drop 3)) (PoseArg.aa (e.2.take 3)) true)
  let gt_model_joints := gt_out.map SMPLXOut.joints
  let gt_vertices := gt_out.map SMPLXOut.vertices
  let gt_keypoints_2d_orig := b.keypoints.map (fun r => r.map (fun kc =>
    (fun i => ctx.opts.img_res / 2 * (kc.1 i + 1), kc.2)))
  let est := ctx.estimate_translation gt_model_joints gt_keypoints_2d_orig
    ctx.focal_length ctx.opts.img_res
  let mo := b.img.map ctx.model
  let pred_out := mo.map (fun m =>
    ctx.smpl m.betas (PoseArg.rm (m.rotmat.drop 1)) (PoseArg.rm (m.rotmat.take 1)) false)
  let pred_vertices := pred_out.map SMPLXOut.vertices
  let pred_joints := pred_out.map SMPLXOut.joints
  let proj :=
    if ctx.opts.use_wpp then
      (weakProjection_gpu pred_joints (mo.map (fun m => m.camera 0))
        (mo.map (fun m => fun i : Fin 2 => m.camera i.succ)),
       GradTensor.mk (List.replicate batch_size z3) true)
    else
      let pred_cam_t_val := mo.map (fun m =>
        camTFromWeak ctx.focal_length ctx.opts.img_res m.camera)
      (List.zipWith (fun js t =>
          ctx.perspective_projection js eye3 t ctx.focal_length z2)
        pred_joints pred_cam_t_val,
       GradTensor.mk pred_cam_t_val false)
  let pred_cam_t := proj.2
  let gt_cam_t :=
    match est with
    | some v => GradTensor.mk v false
    | none => pred_cam_t.clone.detach
  let pred_keypoints_2d := proj.1.map (fun r => r.map (fun v =>
    fun i => v i / (ctx.opts.img_res / 2)))
  let valid_fit := b.has_smpl
  let lp := smpl_losses ctx.rodrigues (mo.map NetOut.rotmat) (mo.map NetOut.betas)
    b.pose b.betas valid_fit
  let loss_keypoints := keypoint_loss pred_keypoints_2d b.keypoints
    ctx.opts.openpose_train_weight ctx.opts.gt_train_weight
  let loss_keypoints_3d := keypoint_3d_loss pred_joints b.pose_3d b.has_pose_3d
  let loss_shape := shape_loss pred_vertices gt_vertices valid_fit
  let cam_scales := mo.map (fun m => m.camera 0)
  let loss := composeTotalLoss ctx.exp ctx.opts loss_shape loss_keypoints
    loss_keypoints_3d lp.1 lp.2 cam_scales
  { output := { pred_vertices := pred_vertices, opt_vertices := gt_vertices,
                pred_cam_t := pred_cam_t.detach, opt_cam_t := gt_cam_t },
    losses := { loss := loss, loss_keypoints := loss_keypoints,
                loss_keypoints_3d := loss_keypoints_3d,
                loss_regr_pose := lp.1, loss_regr_betas := lp.2,
                loss_shape := loss_shape },
    params := ctx.optUpdate params loss,
    trace := [OptEvent.zeroGrad, OptEvent.backward, OptEvent.stepOpt],
    est_result := est,
    pred_cam_t_raw := pred_cam_t,
    gt_joints_used := b.pose_3d,
    gt_vertices_used := gt_vertices,
    cam_scales := cam_scales }

/-- The `losses` dictionary returned by `test_step`, plus the (unchanged)
parameters and the (empty) optimizer trace, and the ground-truth vertices
that entered the shape loss. -/
structure TestStepResult (α P : Type) where
  loss_test : α
  loss_keypoints_test : α
  loss_regr_pose_test : α
  loss_regr_betas_test : α
  loss_shape_test : α
  params : P
  trace : List OptEvent
  gt_vertices_used : List (List (V3 α))

/-- `Trainer.test_step` (train.py:263-332): same loss computation as
`train_step` minus the 3D keypoint loss and the camera-translation
estimation, with no backprop and no optimizer call. -/
def testStep {ι P : Type} (ctx : Ctx α ι P) (params : P) (b : Batch α ι) :
    TestStepResult α P :=
  let gt_out := (b.betas.zip b.pose).map (fun e =>
    ctx.smpl e.1 (PoseArg.aa (e.2.drop 3)) (PoseArg.aa (e.2.take 3)) true)
  let gt_vertices := gt_out.map SMPLXOut.vertices
  let mo := b.img.map ctx.model
  let pred_out := mo.map (fun m =>
    ctx.smpl m.betas (PoseArg.rm (m.rotmat.drop 1)) (PoseArg.rm (m.rotmat.take 1)) false)
  let pred_vertices := pred_out.map SMPLXOut.vertices
  let pred_joints := pred_out.map SMPLXOut.joints
  let proj :=
    if ctx.opts.use_wpp then
      weakProjection_gpu pred_joints (mo.map (fun m => m.camera 0))
        (mo.map (fun m => fun i : Fin 2 => m.camera i.succ))
    else
      List.zipWith (fun js t =>
          ctx.perspective_projection js eye3 t ctx.focal_length z2)
        pred_joints (mo.map (fun m =>
          camTFromWeak ctx.focal_length ctx.opts.img_res m.camera))
  let pred_keypoints_2d := proj.map (fun r => r.map (fun v =>
    fun i => v i / (ctx.opts.img_res / 2)))
  let valid_fit := b.has_smpl
  let lp := smpl_losses ctx.rodrigues (mo.map NetOut.rotmat) (mo.map NetOut.betas)
    b.pose b.betas valid_fit
  let loss_keypoints := keypoint_loss pred_keypoints_2d b.keypoints
    ctx.opts.openpose_train_weight ctx.opts.gt_train_weight
  let loss_shape := shape_loss pred_vertices gt_vertices valid_fit
  let loss := composeTestLoss ctx.exp ctx.opts loss_shape loss_keypoints
    lp.1 lp.2 (mo.map (fun m => m.camera 0))
  { loss_test := loss, loss_keypoints_test := loss_keypoints,
    loss_regr_pose_test := lp.1, loss_regr_betas_test := lp.2,
    loss_shape_test := loss_shape,
    params := params, trace := [],
    gt_vertices_used := gt_vertices }

/-- One entry of the test dataset as `eval` reads it. -/
structure EvalExample (α ι : Type) where
  img : ι
  imgname : String
  pose : List α
  betas : List α

/-- One line of the text log `eval` appends to (`eval_result_path`, opened
with mode `a+`). -/
inductive LogItem (α : Type) where
  | path : String → LogItem α
  | metric : String → α → LogItem α
  | blank : LogItem α
  deriving DecidableEq

/-- A JSON value of the submission file: a string or a list of numeric
lists. -/
inductive JVal (α : Type) where
  | s : String → JVal α
  | mat : List (List α) → JVal α
  deriving DecidableEq

/-- Splitting a character list at every occurrence of a separator
(the semantics of Python's `str.split(sep)` for a one-character `sep`). -/
def splitOnChar (c : Char) : List Char → List (List Char)
  | [] => [[]]
  | ch :: t =>
    let r := splitOnChar c t
    if ch = c then [] :: r else (ch :: r.headD []) :: r.tail

/-- `img_path.split('/')`. -/
def pySplitSlash (p : String) : List String :=
  (splitOnChar ('/') p.toList).map (fun cs => String.mk cs)

/-- `img_path.split('/')[-4]` (valid for paths of at least four
components, which the dataset guarantees). -/
def recordingName (p : String) : String :=
  let parts := pySplitSlash p
  parts.getD (parts.length - 4) ("")

/-- `img_path.split('/')[-1]`. -/
def frameName (p : String) : String :=
  (pySplitSlash p).getLastD ("")

/-- The per-frame dictionary written by `eval` (train.py:394-399). -/
def frameEntry (pred_pose : List α) (pred_betas : List α) : List (String × JVal α) :=
  [(("gender"), JVal.s ("neutral")),
   (("body_pose"), JVal.mat [pred_pose.drop 3]),
   (("global_orient"), JVal.mat [pred_pose.take 3]),
   (("betas"), JVal.mat [pred_betas])]

/-- Association-list lookup (dictionary read). -/
def lookupA {κ ν : Type} [DecidableEq κ] : List (κ × ν) → κ → Option ν
  | [], _ => none
  | e :: t, k => if e.1 = k then some e.2 else lookupA t k

/-- Association-list update (dictionary write): replace the binding of `k`
if present, else append it. -/
def setA {κ ν : Type} [DecidableEq κ] : List (κ × ν) → κ → ν → List (κ × ν)
  | [], k, v => [(k, v)]
  | e :: t, k, v => if e.1 = k then (k, v) :: t else e :: setA t k v

/-- The nested submission dictionary:
recording name → frame name → frame entry. -/
abbrev PredDict (α : Type) := List (String × List (String × List (String × JVal α)))

/-- The body of the `for i in range(curr_batch_size)` loop of
train.py:389-399: create `pred_dict[recording_name]` when missing, then set
`pred_dict[recording_name][frame_name]` to the frame entry. -/
def predDictInsert (d : PredDict α) (imgname : String) (pose betas : List α) :
    PredDict α :=
  let recN := recordingName imgname
  let frameN := frameName imgname
  let inner := (lookupA d recN).getD []
  setA d recN (setA inner frameN (frameEntry pose betas))

/-- Nested dictionary read. -/
def lookup2 (d : PredDict α) (recN frameN : String) : Option (List (String × JVal α)) :=
  lookupA ((lookupA d recN).getD []) frameN

/-- The whole submission dictionary built over a list of
(image path, converted 72-pose, betas) triples, in dataset order. -/
def buildPredDict (l : List (String × List α × List α)) : PredDict α :=
  l.foldl (fun d e => predDictInsert d e.1 e.2.1 e.2.2) []

/-- The (image path, `pred_pose`, `pred_betas`) triples of one batch:
`pred_pose` is the angle-axis conversion of the padded predicted rotation
matrices (train.py:385-387, the external `tgm` conversion is
`ctx.rotmat_to_aa72`). -/
def evalBatchPreds {ι P : Type} (ctx : Ctx α ι P) (batch : List (EvalExample α ι)) :
    List (String × List α × List α) :=
  batch.map (fun x =>
    let m := ctx.model x.img
    (x.imgname, ctx.rotmat_to_aa72 m.rotmat, m.betas))

/-- Per-joint Euclidean distance: `sqrt(((p - g) ** 2).sum(dim=-1))`. -/
def dist3 (sqrt : α → α) (p g : V3 α) : α :=
  sqrt ((p 0 - g 0) ^ 2 + (p 1 - g 1) ^ 2 + (p 2 - g 2) ^ 2)

/-- The ground-truth SMPL evaluation of `eval` (train.py:359-363):
`smpl_eval` on the ground-truth betas and the pose split into global
orientation (first 3 components) and body pose (rest). -/
def gtEvalOut {ι P : Type} (ctx : Ctx α ι P) (x : EvalExample α ι) : SMPLXOut α :=
  ctx.smpl_eval x.betas (PoseArg.aa (x.pose.drop 3)) (PoseArg.aa (x.pose.take 3)) true

/-- The predicted SMPL evaluation of `eval` (train.py:369-374). -/
def predEvalOut {ι P : Type} (ctx : Ctx α ι P) (x : EvalExample α ι) : SMPLXOut α :=
  let m := ctx.model x.img
  ctx.smpl_eval m.betas (PoseArg.rm (m.rotmat.drop 1)) (PoseArg.rm (m.rotmat.take 1)) false

/-- MPJPE of one example: mean over the first 24 joints of the per-joint
Euclidean distance (train.py:376). -/
def mpjpeOf {ι P : Type} (ctx : Ctx α ι P) (x : EvalExample α ι) : α :=
  mean (List.zipWith (dist3 ctx.sqrt)
    ((predEvalOut ctx x).joints.take 24) ((gtEvalOut ctx x).joints.take 24))

/-- PA-MPJPE of one example: `reconstruction_error` on the first 24 joints
(train.py:378). -/
def paMpjpeOf {ι P : Type} (ctx : Ctx α ι P) (x : EvalExample α ι) : α :=
  ctx.reconstruction_error
    ((predEvalOut ctx x).joints.take 24) ((gtEvalOut ctx x).joints.take 24)

/-- V2V of one example: mean over the vertices of the per-vertex Euclidean
distance (train.py:380). -/
def v2vOf {ι P : Type} (ctx : Ctx α ι P) (x : EvalExample α ι) : α :=
  mean (List.zipWith (dist3 ctx.sqrt)
    (predEvalOut ctx x).vertices (gtEvalOut ctx x).vertices)

/-- PA-V2V of one example: `reconstruction_error` on the vertices
(train.py:382). -/
def paV2vOf {ι P : Type} (ctx : Ctx α ι P) (x : EvalExample α ι) : α :=
  ctx.reconstruction_error (predEvalOut ctx x).vertices (gtEvalOut ctx x).vertices

/-- The outcome of `Trainer.eval`: the four per-example metric arrays, the
submission dictionary, the appended text log, and the (empty) optimizer
trace. -/
structure EvalResult (α : Type) where
  mpjpe : List α
  pa_mpjpe : List α
  v2v : List α
  pa_v2v : List α
  pred_dict : PredDict α
  log : List (LogItem α)
  trace : List OptEvent

/-- `Trainer.eval` (train.py:338-418): iterate over the un-shuffled test
set in batches of `batch_size`, fill the four per-example metric arrays
slice by slice, build the submission dictionary, and append the
submission path, the four metric means scaled by 1000, and a blank line to
the text log. -/
def evalRun {ι P : Type} (ctx : Ctx α ι P) (test_ds : List (EvalExample α ι))
    (old_log : List (LogItem α)) : EvalResult α :=
  let batches := chunkList ctx.opts.batch_size test_ds
  let mpjpe := (batches.map (fun bt => bt.map (mpjpeOf ctx))).flatten
  let pa_mpjpe := (batches.map (fun bt => bt.map (paMpjpeOf ctx))).flatten
  let v2v := (batches.map (fun bt => bt.map (v2vOf ctx))).flatten
  let pa_v2v := (batches.map (fun bt => bt.map (paV2vOf ctx))).flatten
  let pred_dict := batches.foldl (fun d bt =>
    (evalBatchPreds ctx bt).foldl (fun d e => predDictInsert d e.1 e.2.1 e.2.2) d) []
  { mpjpe := mpjpe, pa_mpjpe := pa_mpjpe, v2v := v2v, pa_v2v := pa_v2v,
    pred_dict := pred_dict,
    log := old_log ++
      [LogItem.path ctx.submission_path,
       LogItem.metric ("MPJPE") (1000 * mean mpjpe),
       LogItem.metric ("PA-MPJPE") (1000 * mean pa_mpjpe),
       LogItem.metric ("V2V") (1000 * mean v2v),
       LogItem.metric ("PA-V2V") (1000 * mean pa_v2v),
       LogItem.blank],
    trace := [] }

/-- C2: in `train_step`, whenever `estimate_translation` raises (modelled
as returning `none`), the ground-truth camera translation placed in the
output dictionary is a detached clone of the predicted camera translation:
same values, severed from the computation graph. -/
theorem train_step_cam_t_fallback {ι P : Type} (ctx : Ctx α ι P) (params : P)
    (b : Batch α ι) (h : (trainStep ctx params b).est_result = none) :
    (trainStep ctx params b).output.opt_cam_t
      = (trainStep ctx params b).pred_cam_t_raw.clone.detach ∧
    (trainStep ctx params b).output.opt_cam_t.val
      = (trainStep ctx params b).pred_cam_t_raw.val ∧
    (trainStep ctx params b).output.opt_cam_t.detached = true := by
  dsimp only [trainStep] at h ⊢
  rw [h]
  exact ⟨rfl, rfl, rfl⟩

/-- The concrete option values used by the witness contexts. -/
def optsW : Options α :=
  { img_res := 224
    use_wpp := true
    batch_size := 1
    shape_loss_weight := 1
    keypoint_loss_weight := 1
    pose_loss_weight := 1
    beta_loss_weight := 1
    openpose_train_weight := 1
    gt_train_weight := 1 }

/-- A concrete rational context whose translation estimator always raises;
used to instantiate the step theorems. -/
def ctxQ : Ctx ℚ Unit Unit :=
  { opts := optsW,
    focal_length := 5000,
    submission_path := ("out.json"),
    model := fun _ => { rotmat := [], betas := [], camera := fun _ => 0 },
    smpl := fun _ _ _ _ => { joints := [z3], vertices := [] },
    smpl_eval := fun _ _ _ _ => { joints := [z3], vertices := [] },
    estimate_translation := fun _ _ _ _ => none,
    perspective_projection := fun _ _ _ _ _ => [],
    rodrigues := fun _ => eye3,
    exp := fun x => x,
    sqrt := fun x => x,
    reconstruction_error := fun _ _ => 0,
    rotmat_to_aa72 := fun _ => [],
    optUpdate := fun p _ => p }

/-- A concrete one-example batch used to instantiate the step theorems. -/
def batchQ : Batch ℚ Unit :=
  { img := [()],
    keypoints := [[(z2, 0)]],
    pose := [[]],
    betas := [[]],
    pose_3d := [[(z3, 1)]],
    has_smpl := [0],
    has_pose_3d := [0] }

theorem train_step_cam_t_fallback_witness :
    (trainStep ctxQ () batchQ).est_result = none ∧
    ((trainStep ctxQ () batchQ).output.opt_cam_t
        = (trainStep ctxQ () batchQ).pred_cam_t_raw.clone.detach ∧
     (trainStep ctxQ () batchQ).output.opt_cam_t.val
        = (trainStep ctxQ () batchQ).pred_cam_t_raw.val ∧
     (trainStep ctxQ () batchQ).output.opt_cam_t.detached = true) :=
  ⟨rfl, train_step_cam_t_fallback ctxQ () batchQ rfl⟩

/-- C3 (amended): the total training loss equals 60 times the weighted sum
of the five losses plus the positive-depth camera regularization term
`mean(exp(-10 * s) ** 2)` over the predicted camera scales. -/
theorem train_step_total_loss_composition {ι P : Type} (ctx : Ctx α ι P)
    (params : P) (b : Batch α ι) :
    (trainStep ctx params b).losses.loss
      = 60 * (specTotalLoss ctx.opts
            (trainStep ctx params b).losses.loss_shape
            (trainStep ctx params b).losses.loss_keypoints
            (trainStep ctx params b).losses.loss_keypoints_3d
            (trainStep ctx params b).losses.loss_regr_pose
            (trainStep ctx params b).losses.loss_regr_betas
          + mean ((trainStep ctx params b).cam_scales.map
              (fun s => ctx.exp (-s * 10) ^ 2))) := by
  dsimp only [trainStep, composeTotalLoss, specTotalLoss]
  ring

/-- The real-valued context with the true exponential, for evaluating the
camera regularization term of the total loss at a concrete batch. -/
noncomputable def ctxR : Ctx ℝ Unit Unit :=
  { opts := optsW,
    focal_length := 5000,
    submission_path := ("out.json"),
    model := fun _ => { rotmat := [], betas := [], camera := fun _ => 0 },
    smpl := fun _ _ _ _ => { joints := [z3], vertices := [] },
    smpl_eval := fun _ _ _ _ => { joints := [z3], vertices := [] },
    estimate_translation := fun _ _ _ _ => none,
    perspective_projection := fun _ _ _ _ _ => [],
    rodrigues := fun _ => eye3,
    exp := Real.exp,
    sqrt := Real.sqrt,
    reconstruction_error := fun _ _ => 0,
    rotmat_to_aa72 := fun _ => [],
    optUpdate := fun p _ => p }

/-- The real-valued one-example batch matching `ctxR`. -/
noncomputable def batchR : Batch ℝ Unit :=
  { img := [()],
    keypoints := [[(z2, 0)]],
    pose := [[]],
    betas := [[]],
    pose_3d := [[(z3, 1)]],
    has_smpl := [0],
    has_pose_3d := [0] }

/-- C3 (counterexample): at a concrete batch where all five component
losses vanish, the total training loss is 60 (the camera term times 60),
not the weighted sum of the five losses (which is 0): the claim as stated
omits the camera regularization term and the `loss *= 60` scaling. -/
theorem train_loss_not_plain_weighted_sum :
    (trainStep ctxR () batchR).losses.loss
      ≠ specTotalLoss ctxR.opts
          (trainStep ctxR () batchR).losses.loss_shape
          (trainStep ctxR () batchR).losses.loss_keypoints
          (trainStep ctxR () batchR).losses.loss_keypoints_3d
          (trainStep ctxR () batchR).losses.loss_regr_pose
          (trainStep ctxR () batchR).losses.loss_regr_betas := by
  have hloss : (trainStep ctxR () batchR).losses.loss = 60 := by
    simp [trainStep, ctxR, batchR, optsW, composeTotalLoss, keypoint_loss,
      keypoint_3d_loss, shape_loss, smpl_losses, maskFilter, mean,
      weakProjection_gpu, batch_rodrigues_mats, chunkList, confSqTerms3,
      List.enum, z2, z3, Real.exp_zero]
  have hzero : specTotalLoss ctxR.opts
      (trainStep ctxR () batchR).losses.loss_shape
      (trainStep ctxR () batchR).losses.loss_keypoints
      (trainStep ctxR () batchR).losses.loss_keypoints_3d
      (trainStep ctxR () batchR).losses.loss_regr_pose
      (trainStep ctxR () batchR).losses.loss_regr_betas = 0 := by
    simp [trainStep, ctxR, batchR, optsW, specTotalLoss, keypoint_loss,
      keypoint_3d_loss, shape_loss, smpl_losses, maskFilter, mean,
      weakProjection_gpu, batch_rodrigues_mats, chunkList, confSqTerms3,
      List.enum, z2, z3]
  rw [hloss, hzero]
  norm_num

/-- C6 (amended): in both `train_step` and `test_step` the ground-truth
vertices used in the shape loss come from evaluating the SMPL body model on
the ground-truth betas and the ground-truth pose split as global
orientation (first 3 components) and body pose (rest); the ground-truth 3D
joints used in the 3D keypoint loss of `train_step`, however, are the
dataset's `pose_3d` annotations, not SMPL outputs. -/
theorem gt_smpl_split_usage {ι P : Type} (ctx : Ctx α ι P) (params : P)
    (b : Batch α ι) :
    (trainStep ctx params b).output.opt_vertices
      = (b.betas.zip b.pose).map (fun e =>
          (ctx.smpl e.1 (PoseArg.aa (e.2.drop 3)) (PoseArg.aa (e.2.take 3)) true).vertices) ∧
    (trainStep ctx params b).gt_vertices_used
      = (trainStep ctx params b).output.opt_vertices ∧
    (trainStep ctx params b).gt_joints_used = b.pose_3d ∧
    (testStep ctx params b).gt_vertices_used
      = (b.betas.zip b.pose).map (fun e =>
          (ctx.smpl e.1 (PoseArg.aa (e.2.drop 3)) (PoseArg.aa (e.2.take 3)) true).vertices) := by
  refine ⟨?_, rfl, rfl, ?_⟩
  · dsimp only [trainStep]
    rw [List.map_map]
    rfl
  · dsimp only [testStep]
    rw [List.map_map]
    rfl

/-- A context whose SMPL model returns a joint distinct from the batch's
`pose_3d` annotation. -/
def ctxQ6 : Ctx ℚ Unit Unit :=
  { opts := optsW,
    focal_length := 5000,
    submission_path := ("out.json"),
    model := fun _ => { rotmat := [], betas := [], camera := fun _ => 0 },
    smpl := fun _ _ _ _ => { joints := [w3], vertices := [w3] },
    smpl_eval := fun _ _ _ _ => { joints := [w3], vertices := [w3] },
    estimate_translation := fun _ _ _ _ => none,
    perspective_projection := fun _ _ _ _ _ => [],
    rodrigues := fun _ => eye3,
    exp := fun x => x,
    sqrt := fun x => x,
    reconstruction_error := fun _ _ => 0,
    rotmat_to_aa72 := fun _ => [],
    optUpdate := fun p _ => p }

/-- C6 (counterexample): at a concrete batch whose `pose_3d` annotation
(the origin) differs from the SMPL joints (all-3s), the ground-truth 3D
joints that `train_step` feeds to the 3D keypoint loss are not the SMPL
model's joints: the claim as stated is false for the joints. -/
theorem gt_joints_not_from_smpl :
    (trainStep ctxQ6 () batchQ).gt_joints_used.map (fun r => r.map Prod.fst)
      ≠ (batchQ.betas.zip batchQ.pose).map (fun e =>
          (ctxQ6.smpl e.1 (PoseArg.aa (e.2.drop 3)) (PoseArg.aa (e.2.take 3)) true).joints) := by
  decide

/-- C7: every `train_step` performs exactly one gradient-based update, as
the trace `zero_grad; backward; step` with a single optimizer step and a
single application of the optimizer update to the parameters, while
`test_step` and `eval` leave the parameters untouched and perform no
optimizer event. -/
theorem optimizer_discipline {ι P : Type} (ctx : Ctx α ι P) (params : P)
    (b : Batch α ι) (ds : List (EvalExample α ι)) (old : List (LogItem α)) :
    (trainStep ctx params b).trace
      = [OptEvent.zeroGrad, OptEvent.backward, OptEvent.stepOpt] ∧
    (trainStep ctx params b).trace.count OptEvent.stepOpt = 1 ∧
    (trainStep ctx params b).params
      = ctx.optUpdate params (trainStep ctx params b).losses.loss ∧
    (testStep ctx params b).trace = [] ∧
    (testStep ctx params b).params = params ∧
    (evalRun ctx ds old).trace = [] :=
  ⟨rfl, rfl, rfl, rfl, rfl, rfl⟩

theorem flatten_chunkList (n : Nat) (l : List β) : (chunkList n l).flatten = l := by
  induction n, l using chunkList.induct <;>
    simp [chunkList, List.take_succ_cons, List.take_append_drop, *]

/-- C5: `eval` computes MPJPE, PA-MPJPE, V2V and PA-V2V for every test
example (per-joint / per-vertex Euclidean errors, plain and
procrustes-aligned), and appends their means scaled by 1000 to the text
log, after the submission path and before a blank line. -/
theorem eval_metrics_and_log {ι P : Type} (ctx : Ctx α ι P)
    (test_ds : List (EvalExample α ι)) (old_log : List (LogItem α)) :
    (evalRun ctx test_ds old_log).mpjpe = test_ds.map (mpjpeOf ctx) ∧
    (evalRun ctx test_ds old_log).pa_mpjpe = test_ds.map (paMpjpeOf ctx) ∧
    (evalRun ctx test_ds old_log).v2v = test_ds.map (v2vOf ctx) ∧
    (evalRun ctx test_ds old_log).pa_v2v = test_ds.map (paV2vOf ctx) ∧
    (evalRun ctx test_ds old_log).log = old_log ++
      [LogItem.path ctx.submission_path,
       LogItem.metric ("MPJPE") (1000 * mean (test_ds.map (mpjpeOf ctx))),
       LogItem.metric ("PA-MPJPE") (1000 * mean (test_ds.map (paMpjpeOf ctx))),
       LogItem.metric ("V2V") (1000 * mean (test_ds.map (v2vOf ctx))),
       LogItem.metric ("PA-V2V") (1000 * mean (test_ds.map (paV2vOf ctx))),
       LogItem.blank] := by
  have key : ∀ f : EvalExample α ι → α,
      ((chunkList ctx.opts.batch_size test_ds).map (fun bt => bt.map f)).flatten
        = test_ds.map f := by
    intro f
    rw [← List.map_flatten, flatten_chunkList]
  dsimp only [evalRun]
  rw [key (mpjpeOf ctx), key (paMpjpeOf ctx), key (v2vOf ctx), key (paV2vOf ctx)]
  exact ⟨rfl, rfl, rfl, rfl, rfl⟩

theorem lookupA_setA_self {κ ν : Type} [DecidableEq κ] (d : List (κ × ν))
    (k : κ) (v : ν) : lookupA (setA d k v) k = some v := by
  induction d with
  | nil => simp [setA, lookupA]
  | cons e t ih =>
    by_cases he : e.1 = k
    · simp [setA, he, lookupA]
    · simp [setA, he, lookupA, ih]

theorem lookupA_setA_ne {κ ν : Type} [DecidableEq κ] (d : List (κ × ν))
    (k k2 : κ) (v : ν) (h : k2 ≠ k) :
    lookupA (setA d k v) k2 = lookupA d k2 := by
  induction d with
  | nil => simp [setA, lookupA, Ne.symm h]
  | cons e t ih =>
    by_cases he : e.1 = k
    · simp [setA, he, lookupA, Ne.symm h, ih]
    · by_cases he2 : e.1 = k2 <;> simp [setA, he, lookupA, he2, ih, h]

theorem lookup2_insert_self (d : PredDict α) (n : String) (p bt : List α) :
    lookup2 (predDictInsert d n p bt) (recordingName n) (frameName n)
      = some (frameEntry p bt) := by
  simp [lookup2, predDictInsert, lookupA_setA_self]

theorem lookup2_insert_ne (d : PredDict α) (n : String) (p bt : List α)
    (r f : String) (h : (recordingName n, frameName n) ≠ (r, f)) :
    lookup2 (predDictInsert d n p bt) r f = lookup2 d r f := by
  by_cases hr : recordingName n = r
  · subst hr
    have hf : frameName n ≠ f := by
      intro hf
      exact h (by rw [hf])
    simp [lookup2, predDictInsert, lookupA_setA_self,
      lookupA_setA_ne _ _ _ _ (Ne.symm hf)]
  · simp [lookup2, predDictInsert, lookupA_setA_ne _ _ _ _ (Ne.symm hr)]

theorem lookup2_foldl_untouched (l : List (String × List α × List α))
    (d : PredDict α) (r f : String)
    (h : ∀ e ∈ l, (recordingName e.1, frameName e.1) ≠ (r, f)) :
    lookup2 (l.foldl (fun d e => predDictInsert d e.1 e.2.1 e.2.2) d) r f
      = lookup2 d r f := by
  induction l generalizing d with
  | nil => rfl
  | cons y t ih =>
    simp only [List.foldl_cons]
    rw [ih _ (fun e he => h e (List.mem_cons_of_mem _ he))]
    exact lookup2_insert_ne d y.1 y.2.1 y.2.2 r f (h y (by simp))

theorem lookup2_foldl_mem (l : List (String × List α × List α))
    (d : PredDict α) (x : String × List α × List α) (hx : x ∈ l)
    (hnd : (l.map (fun e => (recordingName e.1, frameName e.1))).Nodup) :
    lookup2 (l.foldl (fun d e => predDictInsert d e.1 e.2.1 e.2.2) d)
        (recordingName x.1) (frameName x.1)
      = some (frameEntry x.2.1 x.2.2) := by
  induction l generalizing d with
  | nil => cases hx
  | cons y t ih =>
    simp only [List.map_cons, List.nodup_cons] at hnd
    simp only [List.foldl_cons]
    rcases List.mem_cons.mp hx with rfl | hxt
    · have hnot : ∀ e ∈ t,
          (recordingName e.1, frameName e.1) ≠ (recordingName x.1, frameName x.1) := by
        intro e he heq
        exact hnd.1 (by rw [← heq]; exact List.mem_map_of_mem _ he)
      rw [lookup2_foldl_untouched t _ _ _ hnot]
      exact lookup2_insert_self d x.1 x.2.1 x.2.2
    · exact ih _ hxt hnd.2

theorem foldl_inner_flatten {σ δ ε : Type} (step : σ → δ → σ) (conv : ε → List δ)
    (L : List ε) (init : σ) :
    L.foldl (fun d bt => (conv bt).foldl step d) init
      = (L.map conv).flatten.foldl step init := by
  induction L generalizing init with
  | nil => rfl
  | cons h t ih =>
    simp only [List.foldl_cons, List.map_cons, List.flatten_cons, List.foldl_append]
    exact ih _

theorem evalRun_pred_dict_eq {ι P : Type} (ctx : Ctx α ι P)
    (ds : List (EvalExample α ι)) (old : List (LogItem α)) :
    (evalRun ctx ds old).pred_dict = buildPredDict (evalBatchPreds ctx ds) := by
  dsimp only [evalRun, buildPredDict]
  rw [foldl_inner_flatten]
  have hmaps : ((chunkList ctx.opts.batch_size ds).map (evalBatchPreds ctx)).flatten
      = evalBatchPreds ctx ds := by
    rw [show evalBatchPreds ctx = List.map (fun x =>
        (x.imgname, ctx.rotmat_to_aa72 (ctx.model x.img).rotmat,
          (ctx.model x.img).betas)) from rfl]
    rw [← List.map_flatten, flatten_chunkList]
  rw [hmaps]

/-- C4 (amended): the submission dictionary built by `eval` maps the
recording name (fourth-from-last path component) to a map from frame names
(last component) to entries holding the predicted body pose
(components 3..71 of the converted pose vector), the global orientation
(first three components) and the betas, each wrapped in a singleton list —
plus a constant `gender: neutral` field; entries are keyed as claimed but
hold this fourth field as well. -/
theorem eval_pred_dict_entries {ι P : Type} (ctx : Ctx α ι P)
    (ds : List (EvalExample α ι)) (old : List (LogItem α))
    (x : String × List α × List α) (hx : x ∈ evalBatchPreds ctx ds)
    (hnd : ((evalBatchPreds ctx ds).map
      (fun e => (recordingName e.1, frameName e.1))).Nodup) :
    (evalRun ctx ds old).pred_dict = buildPredDict (evalBatchPreds ctx ds) ∧
    lookup2 (evalRun ctx ds old).pred_dict (recordingName x.1) (frameName x.1)
      = some (frameEntry x.2.1 x.2.2) ∧
    frameEntry x.2.1 x.2.2
      = [(("gender"), JVal.s ("neutral")),
         (("body_pose"), JVal.mat [x.2.1.drop 3]),
         (("global_orient"), JVal.mat [x.2.1.take 3]),
         (("betas"), JVal.mat [x.2.2])] := by
  refine ⟨evalRun_pred_dict_eq ctx ds old, ?_, rfl⟩
  rw [evalRun_pred_dict_eq ctx ds old]
  exact lookup2_foldl_mem (evalBatchPreds ctx ds) [] x hx hnd

/-- The one-example test set used to instantiate the eval theorems. -/
def dsQ : List (EvalExample ℚ Unit) :=
  [{ img := (), imgname := ("a/b/c/d/e.jpg"), pose := [7], betas := [9] }]

theorem eval_pred_dict_entries_witness :
    (((("a/b/c/d/e.jpg"), [], []) ∈ evalBatchPreds ctxQ dsQ) ∧
      ((evalBatchPreds ctxQ dsQ).map
        (fun e => (recordingName e.1, frameName e.1))).Nodup) ∧
    ((evalRun ctxQ dsQ []).pred_dict = buildPredDict (evalBatchPreds ctxQ dsQ) ∧
     lookup2 (evalRun ctxQ dsQ []).pred_dict
          (recordingName ("a/b/c/d/e.jpg")) (frameName ("a/b/c/d/e.jpg"))
        = some (frameEntry [] []) ∧
     frameEntry ([] : List ℚ) ([] : List ℚ)
        = [(("gender"), JVal.s ("neutral")),
           (("body_pose"), JVal.mat [([] : List ℚ).drop 3]),
           (("global_orient"), JVal.mat [([] : List ℚ).take 3]),
           (("betas"), JVal.mat [([] : List ℚ)])]) :=
  ⟨⟨by decide, by decide⟩,
   eval_pred_dict_entries ctxQ dsQ [] ((("a/b/c/d/e.jpg"), [], []))
     (by decide) (by decide)⟩

/-- C4 (counterexample): at a concrete example the frame entry written by
`eval` carries the key list `gender, body_pose, global_orient, betas`:
it contains a `gender` field beyond the three predicted quantities, so it
does not contain exactly the predicted body pose, global orientation and
shape coefficients. -/
theorem eval_pred_dict_entry_has_gender :
    ((lookup2 (buildPredDict [((("a/b/c/d/e.jpg"), [(7 : ℚ)], [(9 : ℚ)]))])
          (("b")) (("e.jpg"))).getD []).map Prod.fst
      = [("gender"), ("body_pose"), ("global_orient"), ("betas")] ∧
    (("gender") : String) ∉ [("body_pose"), ("global_orient"), ("betas")] := by
  constructor
  · rfl
  · decide

/-- A raw `[B, K, C]` tensor as stored values (batch of keypoint rows). -/
abbrev Tens3 (α : Type) := List (List (List α))

/-- A store of tensors addressed by allocation index; in-place tensor
operations write cells of this heap, `clone` allocates a fresh cell. -/
abbrev Heap (α : Type) := List (Tens3 α)

/-- Reading a tensor from the store. -/
def hget (h : Heap α) (r : Nat) : Tens3 α := (h[r]?).getD []

/-- `gt[:, :, -1].unsqueeze(-1).clone()`: the last column of every
keypoint row, as a freshly copied `[B, K, 1]` tensor. -/
def lastColClone (t : Tens3 α) : Tens3 α :=
  t.map (fun ex => ex.map (fun row => [(row.getLast?).getD 0]))

/-- `t[:, :n] *= w`: scale the first `n` keypoint rows of every example. -/
def scaleRowsBelow (n : Nat) (w : α) (t : Tens3 α) : Tens3 α :=
  t.map (fun ex => ex.enum.map (fun jr =>
    if jr.1 < n then jr.2.map (fun x => x * w) else jr.2))

/-- `t[:, n:] *= w`: scale the keypoint rows from index `n` on. -/
def scaleRowsFrom (n : Nat) (w : α) (t : Tens3 α) : Tens3 α :=
  t.map (fun ex => ex.enum.map (fun jr =>
    if n ≤ jr.1 then jr.2.map (fun x => x * w) else jr.2))

/-- `(conf * criterion_keypoints(pred_keypoints_2d, gt[:, :, :-1])).mean()`
on raw tensors: the `[B, K, 1]` confidence broadcasts over the coordinate
columns of `gt` minus its last column. -/
def confWeightedMSE (conf pred gt : Tens3 α) : α :=
  mean (((conf.zip (pred.zip gt)).map (fun e =>
    ((e.1.zip (e.2.1.zip e.2.2)).map (fun kr =>
      (kr.2.1.zip kr.2.2.dropLast).map (fun pg =>
        (kr.1.getD 0 0) * (pg.1 - pg.2) ^ 2))).flatten)).flatten)

/-- `Trainer.keypoint_loss` (train.py:77-86) at storage level: the ground
truth lives in the store at `gtRef`; the confidence column is cloned into a
fresh cell, the two in-place weight multiplications write that fresh cell,
and the loss is computed from the weighted confidence, the predictions and
the ground truth. -/
def keypoint_loss_heap (h : Heap α) (gtRef : Nat) (pred : Tens3 α)
    (openpose_weight gt_weight : α) : Heap α × α :=
  let gt := hget h gtRef
  let confRef := h.length
  let h1 := h ++ [lastColClone gt]
  let h2 := h1.set confRef (scaleRowsBelow 25 openpose_weight (hget h1 confRef))
  let h3 := h2.set confRef (scaleRowsFrom 25 gt_weight (hget h2 confRef))
  (h3, confWeightedMSE (hget h3 confRef) pred gt)

/-- C8: `keypoint_loss` leaves its `gt_keypoints_2d` argument unchanged:
the confidence column is cloned into a fresh cell before the openpose and
ground-truth weights are applied in place, so the stored ground-truth
keypoint tensor holds the same values after the call as before. -/
theorem keypoint_loss_heap_preserves_gt (h : Heap α) (gtRef : Nat)
    (pred : Tens3 α) (ow gw : α) (hr : gtRef < h.length) :
    hget (keypoint_loss_heap h gtRef pred ow gw).1 gtRef = hget h gtRef := by
  dsimp only [keypoint_loss_heap, hget]
  rw [List.getElem?_set_ne (show h.length ≠ gtRef by omega),
      List.getElem?_set_ne (show h.length ≠ gtRef by omega),
      List.getElem?_append]
  simp [hr]

theorem keypoint_loss_heap_preserves_gt_witness :
    ((0 : Nat) < ([[[[(1 : ℚ), 2]]]] : Heap ℚ).length) ∧
    hget (keypoint_loss_heap ([[[[(1 : ℚ), 2]]]] : Heap ℚ) 0 [[[3, 4]]] 5 7).1 0
      = hget ([[[[(1 : ℚ), 2]]]] : Heap ℚ) 0 :=
  ⟨by decide,
   keypoint_loss_heap_preserves_gt ([[[[(1 : ℚ), 2]]]] : Heap ℚ) 0 [[[3, 4]]] 5 7
     (by decide)⟩

end EgoBody
